import Mathlib

/-!
Shallow embedding of the AgentMira frontend dashboard (React/TypeScript).

The comparison engine (`getComparison`, `getAnalysis`, `renderOverallWinner`)
lives in the CompareProperties component; panel request/response behaviour
(validation, fetch settlement, reset) is embedded as explicit state-passing
functions on panel-state records.  JavaScript numbers are modelled by `JSNum`:
an exact rational together with the three non-finite values (`inf`, `negInf`,
`nan`) that JavaScript division can produce; the JS operators `===`, `<`, `>`
and `/` are modelled by `jsEq`, `jsLt` and `jsDivQ`.  Rounding of finite
values is not modelled (rationals are exact); no claim below depends on it.
-/

namespace AgentMira

/-- Result record returned by `getComparison` in the source:
`{ winner: string, class: string }`.  The `class` field is named `cls`
here because `class` is a Lean keyword. -/
structure CompResult where
  winner : String
  cls : String
deriving DecidableEq

/-- Model of a JavaScript `number` as used by this code: an exact rational,
positive or negative infinity, or NaN. -/
inductive JSNum where
  | finite (q : ℚ)
  | inf
  | negInf
  | nan
deriving DecidableEq

/-- JavaScript `===` on numbers: NaN is equal to nothing (itself included). -/
def jsEq : JSNum → JSNum → Bool
  | .nan, _ => false
  | _, .nan => false
  | .finite a, .finite b => decide (a = b)
  | .inf, .inf => true
  | .negInf, .negInf => true
  | _, _ => false

/-- JavaScript `<` on numbers: any comparison involving NaN is false. -/
def jsLt : JSNum → JSNum → Bool
  | .nan, _ => false
  | _, .nan => false
  | .finite a, .finite b => decide (a < b)
  | .finite _, .inf => true
  | .finite _, .negInf => false
  | .inf, _ => false
  | .negInf, .negInf => false
  | .negInf, _ => true

/-- JavaScript division of two finite numbers: division by zero yields
Infinity, -Infinity or NaN depending on the sign of the numerator. -/
def jsDivQ (a b : ℚ) : JSNum :=
  if b = 0 then (if 0 < a then .inf else if a < 0 then .negInf else .nan)
  else .finite (a / b)

/-- `getComparison` from the CompareProperties component:
equal values give a tie, otherwise `higherIsBetter` selects which side of
the strict comparison wins (JS `val1 > val2` is `jsLt val2 val1`). -/
def getComparison (val1 val2 : JSNum) (higherIsBetter : Bool) : CompResult :=
  if jsEq val1 val2 then ⟨"Tie", "tie"⟩
  else if (if higherIsBetter then jsLt val2 val1 else jsLt val1 val2) then
    ⟨"Property 1", "winner-1"⟩
  else ⟨"Property 2", "winner-2"⟩

/-- The `Property` (detail) interface of the CompareProperties component. -/
structure Property where
  _id : String
  id : Int
  title : String
  location : String
  price : ℚ
  bedrooms : ℚ
  bathrooms : ℚ
  size_sqft : ℚ
  amenities : List String
  school_rating : ℚ
  commute_time : ℚ
  has_garage : Bool
  has_garden : Bool
  has_pool : Bool
  year_built : ℚ
deriving DecidableEq

/-- `comparison_notes` inside `comparison_summary`. -/
structure ComparisonNotes where
  larger_property : Int
  more_expensive : Int
  more_bedrooms : Int
  more_bathrooms : Int
deriving DecidableEq

/-- `comparison_summary` of the compare endpoint's response. -/
structure ComparisonSummary where
  price_difference : ℚ
  bedrooms_difference : ℚ
  bathrooms_difference : ℚ
  size_difference : ℚ
  comparison_notes : ComparisonNotes
deriving DecidableEq

/-- `ComparisonResponse`: body of a successful `/comparebyid` response. -/
structure ComparisonResponse where
  status : String
  property1 : Property
  property2 : Property
  comparison_summary : ComparisonSummary
deriving DecidableEq

/-- The record returned by `getAnalysis` (insertion order of the object
literal: price, size, bedrooms, bathrooms, school, commute, year, value). -/
structure Analysis where
  price : CompResult
  size : CompResult
  bedrooms : CompResult
  bathrooms : CompResult
  school : CompResult
  commute : CompResult
  year : CompResult
  value : CompResult
deriving DecidableEq

/-- `getAnalysis` from the source: the eight per-attribute comparisons,
including the derived price-per-square-foot metric, whose division is
performed unconditionally (no guard on `size_sqft = 0`). -/
def getAnalysis (property1 property2 : Property) : Analysis :=
  { price := getComparison (.finite property1.price) (.finite property2.price) false
    size := getComparison (.finite property1.size_sqft) (.finite property2.size_sqft) true
    bedrooms := getComparison (.finite property1.bedrooms) (.finite property2.bedrooms) true
    bathrooms := getComparison (.finite property1.bathrooms) (.finite property2.bathrooms) true
    school := getComparison (.finite property1.school_rating) (.finite property2.school_rating) true
    commute := getComparison (.finite property1.commute_time) (.finite property2.commute_time) false
    year := getComparison (.finite property1.year_built) (.finite property2.year_built) true
    value := getComparison (jsDivQ property1.price property1.size_sqft)
      (jsDivQ property2.price property2.size_sqft) false }

/-- `Object.values(analysis)` in source order. -/
def analysisValues (a : Analysis) : List CompResult :=
  [a.price, a.size, a.bedrooms, a.bathrooms, a.school, a.commute, a.year, a.value]

/-- The `amenitiesComp` computed inside `renderOverallWinner`:
amenity-set sizes compared with the default higher-is-better polarity. -/
def amenitiesComparison (cr : ComparisonResponse) : CompResult :=
  getComparison (.finite (cr.property1.amenities.length : ℚ))
    (.finite (cr.property2.amenities.length : ℚ)) true

/-- `allComparisons` inside `renderOverallWinner`: the nine tallied
attribute verdicts (price, size, bedrooms, bathrooms, school rating,
commute time, year built, price per square foot, amenity count). -/
def tallyComparisons (cr : ComparisonResponse) (analysis : Analysis) : List CompResult :=
  analysisValues analysis ++ [amenitiesComparison cr]

/-- `list.filter(item => item.class === c).length` from the source's tally. -/
def countCls (l : List CompResult) (c : String) : Nat :=
  (l.filter (fun r => r.cls == c)).length

/-- The data computed by `renderOverallWinner` (the badge strings and the
three raw counts shown in the score breakdown). -/
structure OverallResult where
  overallWinner : String
  winnerClass : String
  winnerMessage : String
  property1Wins : Nat
  property2Wins : Nat
  ties : Nat
deriving DecidableEq

/-- `renderOverallWinner` from the source: tallies the nine comparisons and
picks the side with strictly more wins, with an explicit tie otherwise. -/
def renderOverallWinner (cr : ComparisonResponse) (analysis : Analysis) : OverallResult :=
  let allComparisons := tallyComparisons cr analysis
  let property1Wins := countCls allComparisons "winner-1"
  let property2Wins := countCls allComparisons "winner-2"
  let ties := countCls allComparisons "tie"
  if property1Wins > property2Wins then
    { overallWinner := "Property " ++ toString cr.property1.id
      winnerClass := "overall-winner-1"
      winnerMessage := "Property " ++ toString cr.property1.id ++ " is the winner"
      property1Wins := property1Wins, property2Wins := property2Wins, ties := ties }
  else if property2Wins > property1Wins then
    { overallWinner := "Property " ++ toString cr.property2.id
      winnerClass := "overall-winner-2"
      winnerMessage := "Property " ++ toString cr.property2.id ++ " is the winner"
      property1Wins := property1Wins, property2Wins := property2Wins, ties := ties }
  else
    { overallWinner := "It\x27s a Tie!"
      winnerClass := "overall-tie"
      winnerMessage := "Both properties are equally matched"
      property1Wins := property1Wins, property2Wins := property2Wins, ties := ties }

/-! ## Panel state machines -/

/-- Accumulate the leading decimal digits of a character list. -/
def parseDigitsAux : List Char → Nat → Nat
  | c :: rest, acc => if c.isDigit then parseDigitsAux rest (acc * 10 + (c.toNat - 48)) else acc
  | [], acc => acc

/-- Leading run of decimal digits, or `none` when the list starts with a
non-digit (the NaN case of `parseInt`). -/
def parseDigits : List Char → Option Nat
  | c :: rest => if c.isDigit then some (parseDigitsAux (c :: rest) 0) else none
  | [] => none

/-- Model of JavaScript `parseInt` on the decimal inputs this form can
produce: skip leading spaces, optional sign, then a leading digit run;
`none` models NaN.  Hex prefixes and exponent forms are not modelled. -/
def jsParseInt (s : String) : Option Int :=
  match s.toList.dropWhile (fun c => c = ' ') with
  | '-' :: rest => (parseDigits rest).map (fun n => -(n : Int))
  | '+' :: rest => (parseDigits rest).map (fun n => (n : Int))
  | rest => (parseDigits rest).map (fun n => (n : Int))

/-- Transient state of the CompareProperties panel: the two text inputs,
the stored result, the loading flag and the error string. -/
structure CompareState where
  compareId1 : String
  compareId2 : String
  comparisonResult : Option ComparisonResponse
  compareLoading : Bool
  error : Option String
deriving DecidableEq

/-- Initial `useState` values of the CompareProperties panel. -/
def compareInitialState : CompareState :=
  { compareId1 := "1", compareId2 := "2", comparisonResult := none
    compareLoading := false, error := none }

/-- Outcome of one settled `fetch`: an HTTP response with a status and a
parsed body (the body is only consumed on 2xx), or a thrown error whose
message reaches the `catch` block (network failure, JSON parse failure). -/
inductive FetchOutcome (α : Type) where
  | resp (status : Nat) (body : α)
  | netErr (msg : String)
deriving DecidableEq

/-- What `compareProperties` does before its `await`: either an early
`return setError(...)` from validation (no network call), or the request
payload together with the in-flight state (`loading := true`,
`error := null`). -/
inductive CompareAction where
  | rejected (s : CompareState)
  | requested (id1 id2 : Int) (s : CompareState)
deriving DecidableEq

/-- Phase of `compareProperties` up to the `fetch`: `parseInt` both inputs,
run the three validation checks in source order, and on success enter the
loading state with the parsed ids as the request payload. -/
def compareSubmit (s : CompareState) : CompareAction :=
  let id1 := jsParseInt s.compareId1
  let id2 := jsParseInt s.compareId2
  if s.compareId1 = "" ∨ s.compareId2 = "" then
    .rejected { s with error := some "Please enter both property IDs" }
  else if s.compareId1 = s.compareId2 then
    .rejected { s with error := some "Please enter different property IDs" }
  else
    match id1, id2 with
    | some v1, some v2 => .requested v1 v2 { s with compareLoading := true, error := none }
    | _, _ => .rejected { s with error := some "Please enter valid numeric IDs" }

/-- The error message thrown for a non-ok compare response:
404 is special-cased, every other status gets the generic string. -/
def compareHttpErrorMsg (status : Nat) : String :=
  if status = 404 then "Property ID not found" else "HTTP error! status: " ++ toString status

/-- Phase of `compareProperties` after the `await`: a 2xx response stores
the parsed body; a non-ok status throws `compareHttpErrorMsg`, caught by
the `catch` which stores the message; a thrown transport error likewise;
the `finally` clears the loading flag on every path.  Note the stored
`comparisonResult` is untouched on the two failure paths. -/
def compareSettle (s : CompareState) (fr : FetchOutcome ComparisonResponse) : CompareState :=
  match fr with
  | .resp status body =>
    if 200 ≤ status ∧ status ≤ 299 then
      { s with comparisonResult := some body, compareLoading := false }
    else
      { s with error := some (compareHttpErrorMsg status), compareLoading := false }
  | .netErr msg => { s with error := some msg, compareLoading := false }

/-- The state-mutating events the CompareProperties panel offers: editing
either input (the two `onChange` handlers) and the compare button (its
settled `fetch` outcome supplied when validation passes).  The component
declares no other state updates — in particular no reset handler. -/
inductive CompareEvent where
  | setId1 (v : String)
  | setId2 (v : String)
  | submit (fr : FetchOutcome ComparisonResponse)

/-- One event of the CompareProperties panel, as a state transition. -/
def compareHandle (s : CompareState) (e : CompareEvent) : CompareState :=
  match e with
  | .setId1 v => { s with compareId1 := v }
  | .setId2 v => { s with compareId2 := v }
  | .submit fr =>
    match compareSubmit s with
    | .rejected s' => s'
    | .requested _ _ s' => compareSettle s' fr

/-- Property summary shape returned by listing/search. -/
structure PropertySummary where
  _id : String
  id : Int
  title : String
  price : ℚ
  location : String
deriving DecidableEq

/-- Body of a successful `/findproperties` response. -/
structure SearchResponse where
  status : String
  total_properties : Int
  properties : List PropertySummary
deriving DecidableEq

/-- Transient state of the SearchProperties panel. -/
structure SearchState where
  location : String
  budget : String
  bedrooms : String
  bathrooms : String
  minSizesqft : String
  amenitiesInput : String
  searchResults : Option SearchResponse
  loading : Bool
  error : Option String
deriving DecidableEq

/-- Initial `useState` values of the SearchProperties panel. -/
def searchInitialState : SearchState :=
  { location := "", budget := "", bedrooms := "", bathrooms := ""
    minSizesqft := "", amenitiesInput := "", searchResults := none
    loading := false, error := none }

/-- `resetForm` of the SearchProperties panel: clears the six form fields,
the stored results and the error.  The loading flag has no setter here. -/
def searchResetForm (s : SearchState) : SearchState :=
  { location := "", budget := "", bedrooms := "", bathrooms := ""
    minSizesqft := "", amenitiesInput := "", searchResults := none
    loading := s.loading, error := none }

/-- Body of a successful `/predict` response (display-only `input_data`
and `model_info` sub-objects are inert for the state transitions and are
not modelled field-by-field). -/
structure PredictionResponse where
  status : String
  predicted_price : ℚ
deriving DecidableEq

/-- Transient state of the Prediction panel. -/
structure PredictState where
  propertyType : String
  lotArea : String
  buildingArea : String
  bedrooms : String
  bathrooms : String
  yearBuilt : String
  hasPool : Bool
  hasGarage : Bool
  schoolRating : String
  predictionResult : Option PredictionResponse
  loading : Bool
  error : Option String
deriving DecidableEq

/-- Initial `useState` values of the Prediction panel. -/
def predictInitialState : PredictState :=
  { propertyType := "SFH", lotArea := "", buildingArea := "", bedrooms := ""
    bathrooms := "", yearBuilt := "", hasPool := false, hasGarage := false
    schoolRating := "", predictionResult := none, loading := false, error := none }

/-- `resetForm` of the Prediction panel. -/
def predictResetForm (s : PredictState) : PredictState :=
  { propertyType := "SFH", lotArea := "", buildingArea := "", bedrooms := ""
    bathrooms := "", yearBuilt := "", hasPool := false, hasGarage := false
    schoolRating := "", predictionResult := none, loading := s.loading, error := none }

/-- `handlePredict` at the top of its `try`, after validation passed:
`setLoading(true); setError(null)` before the `fetch` is issued. -/
def predictStart (s : PredictState) : PredictState :=
  { s with loading := true, error := none }

/-- Error message thrown for a non-ok predict response. -/
def predictHttpErrorMsg (status : Nat) : String :=
  if status = 400 then "Invalid request data" else "HTTP error! status: " ++ toString status

/-- `handlePredict` after its `await`, mirroring `compareSettle`:
store the body on 2xx, store the thrown message otherwise, and clear the
loading flag in the `finally` on every path. -/
def predictSettle (s : PredictState) (fr : FetchOutcome PredictionResponse) : PredictState :=
  match fr with
  | .resp status body =>
    if 200 ≤ status ∧ status ≤ 299 then
      { s with predictionResult := some body, loading := false }
    else
      { s with error := some (predictHttpErrorMsg status), loading := false }
  | .netErr msg => { s with error := some msg, loading := false }

/-- `handleSearch` at the top of its `try`, after validation passed. -/
def searchStart (s : SearchState) : SearchState :=
  { s with loading := true, error := none }

/-- Error message thrown for a non-ok search response. -/
def searchHttpErrorMsg (status : Nat) : String :=
  if status = 400 then "Invalid search parameters" else "HTTP error! status: " ++ toString status

/-- `handleSearch` after its `await`: store the body on 2xx, store the
thrown message otherwise, clear the loading flag in the `finally`. -/
def searchSettle (s : SearchState) (fr : FetchOutcome SearchResponse) : SearchState :=
  match fr with
  | .resp status body =>
    if 200 ≤ status ∧ status ≤ 299 then
      { s with searchResults := some body, loading := false }
    else
      { s with error := some (searchHttpErrorMsg status), loading := false }
  | .netErr msg => { s with error := some msg, loading := false }

/-- Body of a successful `/recommend` response (the display-only
recommendation, cache and performance sub-objects are inert for the state
transitions and are not modelled field-by-field). -/
structure RecommendationResponse where
  status : String
  total_properties : Int
deriving DecidableEq

/-- Transient state of the Recommendation panel. -/
structure RecommendState where
  userBudget : String
  userMinBedrooms : String
  recommendationResult : Option RecommendationResponse
  loading : Bool
  error : Option String
deriving DecidableEq

/-- Initial `useState` values of the Recommendation panel. -/
def recommendInitialState : RecommendState :=
  { userBudget := "", userMinBedrooms := "", recommendationResult := none
    loading := false, error := none }

/-- `resetForm` of the Recommendation panel. -/
def recommendResetForm (s : RecommendState) : RecommendState :=
  { userBudget := "", userMinBedrooms := "", recommendationResult := none
    loading := s.loading, error := none }

/-- `handleRecommendation` at the top of its `try`, after validation. -/
def recommendStart (s : RecommendState) : RecommendState :=
  { s with loading := true, error := none }

/-- Error message thrown for a non-ok recommend response. -/
def recommendHttpErrorMsg (status : Nat) : String :=
  if status = 400 ∨ status = 404 then "No properties found for your criteria"
  else "HTTP error! status: " ++ toString status

/-- `handleRecommendation` after its `await`. -/
def recommendSettle (s : RecommendState) (fr : FetchOutcome RecommendationResponse) : RecommendState :=
  match fr with
  | .resp status body =>
    if 200 ≤ status ∧ status ≤ 299 then
      { s with recommendationResult := some body, loading := false }
    else
      { s with error := some (recommendHttpErrorMsg status), loading := false }
  | .netErr msg => { s with error := some msg, loading := false }

/-- Body of a successful `/properties` listing response. -/
structure PropertiesResponse where
  status : String
  total_properties : Int
  properties : List PropertySummary
deriving DecidableEq

/-- Body of a successful `/properties/{id}` detail response; the
`property` field is optional to model the code's truthiness check. -/
structure PropertyDetailResponse where
  status : String
  property : Option Property
deriving DecidableEq

/-- Transient state of the Properties panel (listing plus detail modal). -/
structure PropsPanelState where
  properties : List PropertySummary
  totalProperties : Int
  loading : Bool
  error : Option String
  selectedProperty : Option Property
  showModal : Bool
  detailsLoading : Bool
deriving DecidableEq

/-- `fetchProperties` at the top of its `try`. -/
def fetchPropertiesStart (s : PropsPanelState) : PropsPanelState :=
  { s with loading := true, error := none }

/-- `fetchProperties` after its `await`: a 2xx body with status
"success" replaces the listing (the body's array is a list by
construction here, so the `Array.isArray` check always passes), any other
2xx body clears it; a non-ok status or thrown error stores the wrapped
message; the `finally` clears the loading flag on every path. -/
def fetchPropertiesSettle (s : PropsPanelState) (fr : FetchOutcome PropertiesResponse) :
    PropsPanelState :=
  match fr with
  | .resp status body =>
    if 200 ≤ status ∧ status ≤ 299 then
      if body.status = "success" then
        { s with
          properties := body.properties
          totalProperties := body.total_properties
          loading := false }
      else
        { s with properties := [], totalProperties := 0, loading := false }
    else
      { s with error := some ("Failed to fetch properties: "
          ++ ("HTTP error! status: " ++ toString status)), loading := false }
  | .netErr msg =>
    { s with error := some ("Failed to fetch properties: " ++ msg), loading := false }

/-- `fetchPropertyDetails` at the top of its `try` (the error is not
cleared here, unlike the other fetches). -/
def fetchPropertyDetailsStart (s : PropsPanelState) : PropsPanelState :=
  { s with detailsLoading := true }

/-- `fetchPropertyDetails` after its `await`. -/
def fetchPropertyDetailsSettle (s : PropsPanelState) (fr : FetchOutcome PropertyDetailResponse) :
    PropsPanelState :=
  match fr with
  | .resp status body =>
    if 200 ≤ status ∧ status ≤ 299 then
      if body.status = "success" then
        match body.property with
        | some p =>
          { s with
            selectedProperty := some p
            showModal := true
            detailsLoading := false }
        | none => { s with detailsLoading := false }
      else { s with detailsLoading := false }
    else
      { s with error := some ("Failed to fetch details: "
          ++ ("HTTP error! status: " ++ toString status)), detailsLoading := false }
  | .netErr msg =>
    { s with error := some ("Failed to fetch details: " ++ msg), detailsLoading := false }

/-! ## Specification-side definitions and sample data -/

/-- The verdict-swapping map the antisymmetry claim describes: first-wins
and second-wins verdicts are exchanged, a tie is unchanged. -/
def swapCompResult (r : CompResult) : CompResult :=
  if r.cls = "winner-1" then ⟨"Property 2", "winner-2"⟩
  else if r.cls = "winner-2" then ⟨"Property 1", "winner-1"⟩
  else r

/-- A concrete property-detail record used as a test input. -/
def sampleProperty : Property :=
  { _id := "a1", id := 1, title := "Cozy Home", location := "Springfield"
    price := 300000, bedrooms := 3, bathrooms := 2, size_sqft := 1500
    amenities := ["Gym", "Parking"], school_rating := 4, commute_time := 25
    has_garage := true, has_garden := false, has_pool := false, year_built := 2005 }

/-- A second concrete property-detail record. -/
def sampleProperty2 : Property :=
  { _id := "a2", id := 2, title := "City Flat", location := "Shelbyville"
    price := 320000, bedrooms := 3, bathrooms := 2, size_sqft := 1400
    amenities := ["Pool"], school_rating := 5, commute_time := 15
    has_garage := false, has_garden := true, has_pool := true, year_built := 2012 }

/-- A concrete comparison summary. -/
def sampleSummary : ComparisonSummary :=
  { price_difference := 20000, bedrooms_difference := 0, bathrooms_difference := 0
    size_difference := 100
    comparison_notes :=
      { larger_property := 1, more_expensive := 2, more_bedrooms := 1, more_bathrooms := 1 } }

/-- A concrete successful compare response. -/
def sampleResponse : ComparisonResponse :=
  { status := "success", property1 := sampleProperty, property2 := sampleProperty2
    comparison_summary := sampleSummary }

/-- A property whose size is zero, exercising the derived metric's division. -/
def zeroSizeProperty : Property :=
  { _id := "z1", id := 7, title := "Zero", location := "X"
    price := 100, bedrooms := 2, bathrooms := 1, size_sqft := 0
    amenities := [], school_rating := 3, commute_time := 10
    has_garage := false, has_garden := false, has_pool := false, year_built := 2000 }

/-- A peer for `zeroSizeProperty`, identical except for a nonzero size. -/
def zeroSizePeer : Property := { zeroSizeProperty with _id := "z2", id := 8, size_sqft := 50 }

/-- A compare response pairing the zero-size property with its peer. -/
def zeroSizeResponse : ComparisonResponse :=
  { status := "success", property1 := zeroSizeProperty, property2 := zeroSizePeer
    comparison_summary := sampleSummary }

/-- A compare-panel state holding a previously fetched result, as left by a
successful call; the loading flag is set as it is just before a new call
settles. -/
def staleCompareState : CompareState :=
  { compareId1 := "1", compareId2 := "2", comparisonResult := some sampleResponse
    compareLoading := true, error := none }

/-- A compare-panel state with a populated result and an error banner. -/
def populatedCompareState : CompareState :=
  { compareId1 := "3", compareId2 := "4", comparisonResult := some sampleResponse
    compareLoading := false, error := some "x" }

/-- A compare-panel state whose two entered identifiers are equal. -/
def equalIdsState : CompareState :=
  { compareId1 := "5", compareId2 := "5", comparisonResult := none
    compareLoading := false, error := none }

/-! ## Helper lemmas -/

lemma jsEq_self {v : JSNum} (h : v ≠ .nan) : jsEq v v = true := by
  cases v <;> simp_all [jsEq]

lemma jsLt_jsEq {v w : JSNum} (h : jsLt v w = true) : jsEq v w = false := by
  cases v <;> cases w <;> simp_all [jsEq, jsLt]
  exact ne_of_lt h

lemma jsEq_comm (v w : JSNum) : jsEq v w = jsEq w v := by
  cases v <;> cases w <;> simp [jsEq, eq_comm]

lemma jsLt_asymm {v w : JSNum} (h : jsLt v w = true) : jsLt w v = false := by
  cases v <;> cases w <;> simp_all [jsLt]
  exact le_of_lt h

lemma jsNum_trichotomy {v w : JSNum} (h1 : v ≠ .nan) (h2 : w ≠ .nan) (hne : v ≠ w) :
    jsLt v w = true ∨ jsLt w v = true := by
  cases v <;> cases w <;> simp_all [jsLt]

lemma getComparison_cls_cases (v w : JSNum) (b : Bool) :
    (getComparison v w b).cls = "winner-1" ∨ (getComparison v w b).cls = "winner-2"
    ∨ (getComparison v w b).cls = "tie" := by
  unfold getComparison
  split_ifs <;> simp

lemma overall_fields (cr : ComparisonResponse) (a : Analysis) :
    (renderOverallWinner cr a).property1Wins = countCls (tallyComparisons cr a) "winner-1"
    ∧ (renderOverallWinner cr a).property2Wins = countCls (tallyComparisons cr a) "winner-2"
    ∧ (renderOverallWinner cr a).ties = countCls (tallyComparisons cr a) "tie" := by
  unfold renderOverallWinner
  dsimp only
  split_ifs <;> exact ⟨rfl, rfl, rfl⟩

lemma overallClassIff (cr : ComparisonResponse) (a : Analysis) :
    ((renderOverallWinner cr a).winnerClass = "overall-winner-1"
      ↔ countCls (tallyComparisons cr a) "winner-2" < countCls (tallyComparisons cr a) "winner-1")
    ∧ ((renderOverallWinner cr a).winnerClass = "overall-winner-2"
      ↔ countCls (tallyComparisons cr a) "winner-1" < countCls (tallyComparisons cr a) "winner-2")
    ∧ ((renderOverallWinner cr a).winnerClass = "overall-tie"
      ↔ countCls (tallyComparisons cr a) "winner-1" = countCls (tallyComparisons cr a) "winner-2") := by
  unfold renderOverallWinner
  dsimp only
  split_ifs with h1 h2
  · exact ⟨iff_of_true rfl h1, iff_of_false (by simp) (by omega),
      iff_of_false (by simp) (by omega)⟩
  · exact ⟨iff_of_false (by simp) (by omega), iff_of_true rfl h2,
      iff_of_false (by simp) (by omega)⟩
  · exact ⟨iff_of_false (by simp) (by omega), iff_of_false (by simp) (by omega),
      iff_of_true rfl (by omega)⟩

lemma countCls_partition (l : List CompResult)
    (h : ∀ r ∈ l, r.cls = "winner-1" ∨ r.cls = "winner-2" ∨ r.cls = "tie") :
    countCls l "winner-1" + countCls l "winner-2" + countCls l "tie" = l.length := by
  induction l with
  | nil => simp [countCls]
  | cons x xs ih =>
    have hx := h x (by simp)
    have hxs := ih (fun r hr => h r (by simp [hr]))
    rcases hx with h1 | h1 | h1 <;>
      simp [countCls, List.filter_cons, h1] at hxs ⊢ <;>
      omega

lemma tally_cls_cases (cr : ComparisonResponse) (a1 a2 : Property) :
    ∀ r ∈ tallyComparisons cr (getAnalysis a1 a2),
      r.cls = "winner-1" ∨ r.cls = "winner-2" ∨ r.cls = "tie" := by
  intro r hr
  simp only [tallyComparisons, analysisValues, getAnalysis, amenitiesComparison,
    List.mem_append, List.mem_cons, List.mem_singleton, List.not_mem_nil, or_false] at hr
  rcases hr with ⟨h | h | h | h | h | h | h | h⟩ | h <;>
    exact h ▸ getComparison_cls_cases _ _ _

lemma compareSubmit_rejected_eq {s s' : CompareState}
    (h : compareSubmit s = .rejected s') :
    s'.comparisonResult = s.comparisonResult ∧ s'.compareLoading = s.compareLoading := by
  unfold compareSubmit at h
  dsimp only at h
  split_ifs at h
  · cases h; exact ⟨rfl, rfl⟩
  · cases h; exact ⟨rfl, rfl⟩
  · split at h
    · cases h
    · cases h; exact ⟨rfl, rfl⟩

lemma compareSubmit_requested_eq {s s' : CompareState} {i1 i2 : Int}
    (h : compareSubmit s = .requested i1 i2 s') :
    s' = { s with compareLoading := true, error := none } := by
  unfold compareSubmit at h
  dsimp only at h
  split_ifs at h
  · split at h
    · cases h; rfl
    · cases h

lemma compareSettle_keeps_isSome {s : CompareState} (fr : FetchOutcome ComparisonResponse)
    (h : s.comparisonResult.isSome) :
    (compareSettle s fr).comparisonResult.isSome := by
  cases fr with
  | resp st body =>
    simp only [compareSettle]
    split_ifs <;> simp [h]
  | netErr m => simpa [compareSettle] using h

lemma compareHandle_keeps_result (s : CompareState) (e : CompareEvent)
    (h : s.comparisonResult.isSome) :
    (compareHandle s e).comparisonResult.isSome := by
  cases e with
  | setId1 v => simpa [compareHandle] using h
  | setId2 v => simpa [compareHandle] using h
  | submit fr =>
    unfold compareHandle
    cases hc : compareSubmit s with
    | rejected s' =>
      have := (compareSubmit_rejected_eq hc).1
      simp [this, h]
    | requested i1 i2 s' =>
      have hs' := compareSubmit_requested_eq hc
      exact compareSettle_keeps_isSome fr (by simp [hs', h])

/-! ## Claim theorems -/

/-- C1: for every polarity and every pair of numeric (non-NaN) values,
equal values yield the Tie verdict; otherwise, with higher-is-better
polarity the side with the greater value wins (first wins when the first
value is greater), and with lower-is-better polarity the side with the
smaller value wins; two distinct numeric values always compare one way
or the other, so the three cases are exhaustive. -/
theorem getComparison_verdict_rule (v1 v2 : JSNum) (higherIsBetter : Bool)
    (h1 : v1 ≠ .nan) (h2 : v2 ≠ .nan) :
    (v1 = v2 → getComparison v1 v2 higherIsBetter = ⟨"Tie", "tie"⟩)
    ∧ (jsLt v2 v1 = true → getComparison v1 v2 true = ⟨"Property 1", "winner-1"⟩)
    ∧ (jsLt v1 v2 = true → getComparison v1 v2 true = ⟨"Property 2", "winner-2"⟩)
    ∧ (jsLt v1 v2 = true → getComparison v1 v2 false = ⟨"Property 1", "winner-1"⟩)
    ∧ (jsLt v2 v1 = true → getComparison v1 v2 false = ⟨"Property 2", "winner-2"⟩)
    ∧ (v1 ≠ v2 → jsLt v1 v2 = true ∨ jsLt v2 v1 = true) := by
  refine ⟨?_, ?_, ?_, ?_, ?_, fun hne => jsNum_trichotomy h1 h2 hne⟩
  · intro he; subst he; simp [getComparison, jsEq_self h1]
  · intro hlt
    have he : jsEq v1 v2 = false := by rw [jsEq_comm]; exact jsLt_jsEq hlt
    simp [getComparison, he, hlt]
  · intro hlt
    have he : jsEq v1 v2 = false := jsLt_jsEq hlt
    have ha : jsLt v2 v1 = false := jsLt_asymm hlt
    simp [getComparison, he, hlt, ha]
  · intro hlt
    have he : jsEq v1 v2 = false := jsLt_jsEq hlt
    simp [getComparison, he, hlt]
  · intro hlt
    have he : jsEq v1 v2 = false := by rw [jsEq_comm]; exact jsLt_jsEq hlt
    have ha : jsLt v1 v2 = false := jsLt_asymm hlt
    simp [getComparison, he, hlt, ha]

/-- C1 witness: the verdict rule evaluated at concrete sizes (1500 vs 1400,
higher is better), prices (300000 vs 320000, lower is better) and equal
bedroom counts. -/
theorem getComparison_verdict_rule_witness :
    getComparison (.finite 1500) (.finite 1400) true = ⟨"Property 1", "winner-1"⟩
    ∧ getComparison (.finite 300000) (.finite 320000) false = ⟨"Property 1", "winner-1"⟩
    ∧ getComparison (.finite 3) (.finite 3) true = ⟨"Tie", "tie"⟩ := by
  refine ⟨?_, ?_, ?_⟩
  · exact (getComparison_verdict_rule (.finite 1500) (.finite 1400) true
      (by decide) (by decide)).2.1 (by decide)
  · exact (getComparison_verdict_rule (.finite 300000) (.finite 320000) false
      (by decide) (by decide)).2.2.2.1 (by decide)
  · exact (getComparison_verdict_rule (.finite 3) (.finite 3) true
      (by decide) (by decide)).1 rfl

/-- C2: for every compare response, the reported raw counts are the win and
tie counts over the nine tallied attribute comparisons, and the aggregate
verdict class is the side with strictly more wins, with an explicit tie
exactly when the two win counts are equal (independently of the tie count). -/
theorem renderOverallWinner_aggregate (cr : ComparisonResponse) :
    ((renderOverallWinner cr (getAnalysis cr.property1 cr.property2)).property1Wins
        = countCls (tallyComparisons cr (getAnalysis cr.property1 cr.property2)) "winner-1"
      ∧ (renderOverallWinner cr (getAnalysis cr.property1 cr.property2)).property2Wins
        = countCls (tallyComparisons cr (getAnalysis cr.property1 cr.property2)) "winner-2"
      ∧ (renderOverallWinner cr (getAnalysis cr.property1 cr.property2)).ties
        = countCls (tallyComparisons cr (getAnalysis cr.property1 cr.property2)) "tie")
    ∧ ((renderOverallWinner cr (getAnalysis cr.property1 cr.property2)).winnerClass
          = "overall-winner-1"
        ↔ (renderOverallWinner cr (getAnalysis cr.property1 cr.property2)).property2Wins
          < (renderOverallWinner cr (getAnalysis cr.property1 cr.property2)).property1Wins)
    ∧ ((renderOverallWinner cr (getAnalysis cr.property1 cr.property2)).winnerClass
          = "overall-winner-2"
        ↔ (renderOverallWinner cr (getAnalysis cr.property1 cr.property2)).property1Wins
          < (renderOverallWinner cr (getAnalysis cr.property1 cr.property2)).property2Wins)
    ∧ ((renderOverallWinner cr (getAnalysis cr.property1 cr.property2)).winnerClass
          = "overall-tie"
        ↔ (renderOverallWinner cr (getAnalysis cr.property1 cr.property2)).property1Wins
          = (renderOverallWinner cr (getAnalysis cr.property1 cr.property2)).property2Wins) := by
  obtain ⟨e1, e2, e3⟩ := overall_fields cr (getAnalysis cr.property1 cr.property2)
  obtain ⟨i1, i2, i3⟩ := overallClassIff cr (getAnalysis cr.property1 cr.property2)
  refine ⟨⟨e1, e2, e3⟩, ?_, ?_, ?_⟩
  · rw [e1, e2]; exact i1
  · rw [e1, e2]; exact i2
  · rw [e1, e2]; exact i3

/-- C3 (evaluation at the failing input): with a zero first size the
unguarded division produces Infinity (and 0/0 produces NaN), the derived
price-per-area comparison still yields a verdict, and that verdict is
counted in the nine-attribute tally rather than being skipped: with every
other attribute tied except size, the second property is credited two
wins (size and the derived metric) and the counts still cover all nine
attributes (0 + 2 + 7). -/
theorem zero_size_division_reaches_tally :
    jsDivQ zeroSizeProperty.price zeroSizeProperty.size_sqft = .inf
    ∧ jsDivQ (0 : ℚ) (0 : ℚ) = .nan
    ∧ (getAnalysis zeroSizeProperty zeroSizePeer).value = ⟨"Property 2", "winner-2"⟩
    ∧ (renderOverallWinner zeroSizeResponse (getAnalysis zeroSizeProperty zeroSizePeer)).property1Wins = 0
    ∧ (renderOverallWinner zeroSizeResponse (getAnalysis zeroSizeProperty zeroSizePeer)).property2Wins = 2
    ∧ (renderOverallWinner zeroSizeResponse (getAnalysis zeroSizeProperty zeroSizePeer)).ties = 7 := by
  decide

/-- C4 counterexample: a failed compare call (HTTP 500) leaves the
previously stored result in place alongside the freshly stored error, so
the prior result is not replaced on the failure path. -/
theorem compare_failure_keeps_stale_result :
    (compareSettle staleCompareState (.resp 500 sampleResponse)).comparisonResult
      = some sampleResponse
    ∧ (compareSettle staleCompareState (.resp 500 sampleResponse)).error
      = some "HTTP error! status: 500" := by
  constructor <;> rfl

/-- C4 amended: on a successful (2xx) compare call the prior result is
replaced by the new response; on a failed call (non-2xx status or thrown
transport error) the error message is stored and the loading flag cleared
but the previously stored result is retained, so a stale result can be
displayed alongside the error. -/
theorem compareSettle_result_policy (s : CompareState) (st : Nat)
    (b : ComparisonResponse) (m : String) :
    ((200 ≤ st ∧ st ≤ 299) → compareSettle s (.resp st b)
        = { s with comparisonResult := some b, compareLoading := false })
    ∧ (¬(200 ≤ st ∧ st ≤ 299) → compareSettle s (.resp st b)
        = { s with error := some (compareHttpErrorMsg st), compareLoading := false })
    ∧ compareSettle s (.netErr m) = { s with error := some m, compareLoading := false } := by
  refine ⟨fun h => ?_, fun h => ?_, rfl⟩
  · simp [compareSettle, h]
  · simp [compareSettle, h]

/-- C4 amended witness: the success path evaluated at a concrete state and
a 204 response. -/
theorem compareSettle_result_policy_witness :
    compareSettle staleCompareState (.resp 204 sampleResponse)
      = { staleCompareState with
          comparisonResult := some sampleResponse
          compareLoading := false } :=
  (compareSettle_result_policy staleCompareState 204 sampleResponse "x").1 (by omega)

/-- C5: whenever the two entered identifiers are equal, the submission is
rejected locally with a user-visible error message (the empty-field message
when they are both empty, the distinct-ids message otherwise) and no
request is ever issued. -/
theorem compare_equal_ids_rejected (s : CompareState) (h : s.compareId1 = s.compareId2) :
    (compareSubmit s = .rejected { s with error := some "Please enter both property IDs" }
      ∨ compareSubmit s = .rejected { s with error := some "Please enter different property IDs" })
    ∧ ∀ (i1 i2 : Int) (s' : CompareState), compareSubmit s ≠ .requested i1 i2 s' := by
  constructor
  · by_cases he : s.compareId1 = "" ∨ s.compareId2 = ""
    · left; simp [compareSubmit, he]
    · right
      rw [not_or] at he
      simp [compareSubmit, he.1, he.2, h]
  · intro i1 i2 s' hc
    by_cases he : s.compareId1 = "" ∨ s.compareId2 = ""
    · simp [compareSubmit, he] at hc
    · rw [not_or] at he
      simp [compareSubmit, he.1, he.2, h] at hc

/-- C5 witness: the rejection evaluated at a state whose two entered
identifiers are both "5". -/
theorem compare_equal_ids_rejected_witness :
    compareSubmit equalIdsState
      = .rejected { equalIdsState with error := some "Please enter both property IDs" }
    ∨ compareSubmit equalIdsState
      = .rejected { equalIdsState with error := some "Please enter different property IDs" } :=
  (compare_equal_ids_rejected equalIdsState rfl).1

/-- C6: every non-2xx compare response stores the thrown message as the
error; that message is exactly "Property ID not found" when the status is
404, and the generic HTTP-error string carrying the status code for every
other non-success status. -/
theorem compare_http_error_messages (s : CompareState) (st : Nat)
    (b : ComparisonResponse) (h : ¬(200 ≤ st ∧ st ≤ 299)) :
    (compareSettle s (.resp st b)).error = some (compareHttpErrorMsg st)
    ∧ (st = 404 → compareHttpErrorMsg st = "Property ID not found")
    ∧ (st ≠ 404 → compareHttpErrorMsg st = "HTTP error! status: " ++ toString st) := by
  refine ⟨?_, ?_, ?_⟩
  · simp [compareSettle, h]
  · intro h4; simp [compareHttpErrorMsg, h4]
  · intro h4; simp [compareHttpErrorMsg, h4]

/-- C6 witness: the stored messages evaluated at statuses 404 and 500. -/
theorem compare_http_error_messages_witness :
    (compareSettle staleCompareState (.resp 404 sampleResponse)).error
      = some "Property ID not found"
    ∧ (compareSettle staleCompareState (.resp 500 sampleResponse)).error
      = some "HTTP error! status: 500" := by
  constructor
  · have h := compare_http_error_messages staleCompareState 404 sampleResponse (by omega)
    rw [h.1, h.2.1 rfl]
  · have h := compare_http_error_messages staleCompareState 500 sampleResponse (by omega)
    rw [h.1, h.2.2 (by omega)]
    decide

/-- C7 counterexample: the compare panel offers no reset operation: no
event it handles (editing either input or submitting with any fetch
outcome) returns this populated state to the initial state, because no
handler ever clears a stored comparison result. -/
theorem compare_panel_offers_no_reset :
    ¬ ∃ e : CompareEvent, compareHandle populatedCompareState e = compareInitialState := by
  rintro ⟨e, he⟩
  have h1 : (compareHandle populatedCompareState e).comparisonResult.isSome :=
    compareHandle_keeps_result _ e (by decide)
  rw [he] at h1
  simp [compareInitialState] at h1

/-- C7 amended: the search, prediction and recommendation panels each
offer a reset operation clearing every form field, the stored result and
the error (restoring the initial state up to the untouched in-flight
loading flag); the compare panel offers none — no compare-panel event
ever clears a stored comparison result. -/
theorem panel_reset_operations :
    (∀ s : SearchState, searchResetForm s = { searchInitialState with loading := s.loading })
    ∧ (∀ s : PredictState, predictResetForm s = { predictInitialState with loading := s.loading })
    ∧ (∀ s : RecommendState, recommendResetForm s = { recommendInitialState with loading := s.loading })
    ∧ (∀ (s : CompareState) (e : CompareEvent),
        s.comparisonResult.isSome → (compareHandle s e).comparisonResult.isSome) :=
  ⟨fun _ => rfl, fun _ => rfl, fun _ => rfl, fun s e h => compareHandle_keeps_result s e h⟩

/-- C7 amended witness: editing an input on a populated compare state keeps
the stored result present. -/
theorem panel_reset_operations_witness :
    (compareHandle populatedCompareState (.setId1 "9")).comparisonResult.isSome :=
  panel_reset_operations.2.2.2 populatedCompareState (.setId1 "9") (by decide)

/-- C8: every panel marks itself busy before its call (the loading flag is
set, together with the error being cleared where the source does so) and
every settled call — 2xx, non-2xx and thrown error alike — leaves the
corresponding busy flag cleared, for the compare, prediction, search,
recommendation and properties (listing and detail) calls. -/
theorem busy_flag_set_and_cleared :
    (∀ (s s' : CompareState) (i1 i2 : Int),
        compareSubmit s = .requested i1 i2 s' → s'.compareLoading = true)
    ∧ (∀ (s : CompareState) (fr : FetchOutcome ComparisonResponse),
        (compareSettle s fr).compareLoading = false)
    ∧ (∀ s : PredictState, (predictStart s).loading = true)
    ∧ (∀ (s : PredictState) (fr : FetchOutcome PredictionResponse),
        (predictSettle s fr).loading = false)
    ∧ (∀ s : SearchState, (searchStart s).loading = true)
    ∧ (∀ (s : SearchState) (fr : FetchOutcome SearchResponse),
        (searchSettle s fr).loading = false)
    ∧ (∀ s : RecommendState, (recommendStart s).loading = true)
    ∧ (∀ (s : RecommendState) (fr : FetchOutcome RecommendationResponse),
        (recommendSettle s fr).loading = false)
    ∧ (∀ s : PropsPanelState, (fetchPropertiesStart s).loading = true)
    ∧ (∀ (s : PropsPanelState) (fr : FetchOutcome PropertiesResponse),
        (fetchPropertiesSettle s fr).loading = false)
    ∧ (∀ s : PropsPanelState, (fetchPropertyDetailsStart s).detailsLoading = true)
    ∧ (∀ (s : PropsPanelState) (fr : FetchOutcome PropertyDetailResponse),
        (fetchPropertyDetailsSettle s fr).detailsLoading = false) := by
  refine ⟨?_, ?_, fun s => rfl, ?_, fun s => rfl, ?_, fun s => rfl, ?_, fun s => rfl, ?_,
    fun s => rfl, ?_⟩
  · intro s s' i1 i2 h
    rw [compareSubmit_requested_eq h]
  · intro s fr
    cases fr with
    | resp st body => simp only [compareSettle]; split_ifs <;> rfl
    | netErr m => rfl
  · intro s fr
    cases fr with
    | resp st body => simp only [predictSettle]; split_ifs <;> rfl
    | netErr m => rfl
  · intro s fr
    cases fr with
    | resp st body => simp only [searchSettle]; split_ifs <;> rfl
    | netErr m => rfl
  · intro s fr
    cases fr with
    | resp st body => simp only [recommendSettle]; split_ifs <;> rfl
    | netErr m => rfl
  · intro s fr
    cases fr with
    | resp st body => simp only [fetchPropertiesSettle]; split_ifs <;> rfl
    | netErr m => rfl
  · intro s fr
    cases fr with
    | resp st body =>
      simp only [fetchPropertyDetailsSettle]
      split_ifs
      · cases body.property <;> rfl
      · rfl
      · rfl
    | netErr m => rfl

/-- C8 witness: the flag around a concrete failing call from the initial
compare state. -/
theorem busy_flag_set_and_cleared_witness :
    ({ compareInitialState with compareLoading := true, error := none } : CompareState).compareLoading
      = true
    ∧ (compareSettle compareInitialState (.netErr "Failed to fetch")).compareLoading = false := by
  constructor
  · exact busy_flag_set_and_cleared.1 compareInitialState
      { compareInitialState with compareLoading := true, error := none } 1 2 (by decide)
  · exact busy_flag_set_and_cleared.2.1 compareInitialState (.netErr "Failed to fetch")

/-- C9: for every compare response with both sizes nonzero (so the derived
metric is an ordinary number), the three reported counts sum to exactly
nine, the fixed number of tallied attributes. -/
theorem tally_counts_sum_to_nine (cr : ComparisonResponse)
    (h1 : cr.property1.size_sqft ≠ 0) (h2 : cr.property2.size_sqft ≠ 0) :
    (renderOverallWinner cr (getAnalysis cr.property1 cr.property2)).property1Wins
      + (renderOverallWinner cr (getAnalysis cr.property1 cr.property2)).property2Wins
      + (renderOverallWinner cr (getAnalysis cr.property1 cr.property2)).ties = 9 := by
  obtain ⟨e1, e2, e3⟩ := overall_fields cr (getAnalysis cr.property1 cr.property2)
  rw [e1, e2, e3]
  have hp := countCls_partition (tallyComparisons cr (getAnalysis cr.property1 cr.property2))
    (tally_cls_cases cr cr.property1 cr.property2)
  have hl : (tallyComparisons cr (getAnalysis cr.property1 cr.property2)).length = 9 := by
    simp [tallyComparisons, analysisValues]
  omega

/-- C9 witness: the count sum evaluated at the concrete sample response. -/
theorem tally_counts_sum_to_nine_witness :
    (renderOverallWinner sampleResponse
        (getAnalysis sampleResponse.property1 sampleResponse.property2)).property1Wins
      + (renderOverallWinner sampleResponse
        (getAnalysis sampleResponse.property1 sampleResponse.property2)).property2Wins
      + (renderOverallWinner sampleResponse
        (getAnalysis sampleResponse.property1 sampleResponse.property2)).ties = 9 :=
  tally_counts_sum_to_nine sampleResponse (by decide) (by decide)

/-- C10 counterexample: with a NaN argument (reachable in this program as
0/0 from the derived metric) swapping the arguments does not exchange the
verdicts: both argument orders yield the second-wins verdict. -/
theorem getComparison_swap_counterexample :
    getComparison (.finite 5) .nan true
      ≠ swapCompResult (getComparison .nan (.finite 5) true) := by
  decide

/-- C10 amended: for all non-NaN values (finite or infinite) and every
polarity, swapping the two arguments maps a first-wins verdict to
second-wins, second-wins to first-wins, and leaves a tie unchanged; when
either argument is NaN the verdict is second-wins in both argument orders,
so the swap law fails there. -/
theorem getComparison_swap_rule :
    (∀ (v1 v2 : JSNum) (higherIsBetter : Bool), v1 ≠ .nan → v2 ≠ .nan →
        getComparison v2 v1 higherIsBetter
          = swapCompResult (getComparison v1 v2 higherIsBetter))
    ∧ (∀ (v : JSNum) (higherIsBetter : Bool),
        getComparison .nan v higherIsBetter = ⟨"Property 2", "winner-2"⟩
        ∧ getComparison v .nan higherIsBetter = ⟨"Property 2", "winner-2"⟩) := by
  constructor
  · intro v1 v2 hib h1 h2
    by_cases he : v1 = v2
    · subst he
      simp [getComparison, jsEq_self h1, swapCompResult]
    · rcases jsNum_trichotomy h1 h2 he with hlt | hlt
      · have hne : jsEq v1 v2 = false := jsLt_jsEq hlt
        have hne' : jsEq v2 v1 = false := by rw [jsEq_comm]; exact hne
        have ha : jsLt v2 v1 = false := jsLt_asymm hlt
        cases hib <;> simp [getComparison, hne, hne', ha, hlt, swapCompResult]
      · have hne : jsEq v2 v1 = false := jsLt_jsEq hlt
        have hne' : jsEq v1 v2 = false := by rw [jsEq_comm]; exact hne
        have ha : jsLt v1 v2 = false := jsLt_asymm hlt
        cases hib <;> simp [getComparison, hne, hne', ha, hlt, swapCompResult]
  · intro v hib
    cases v <;> cases hib <;> exact ⟨by simp [getComparison, jsEq, jsLt], by simp [getComparison, jsEq, jsLt]⟩

/-- C10 amended witness: the swap law evaluated at concrete finite sizes. -/
theorem getComparison_swap_rule_witness :
    getComparison (.finite 1400) (.finite 1500) true
      = swapCompResult (getComparison (.finite 1500) (.finite 1400) true) :=
  getComparison_swap_rule.1 (.finite 1500) (.finite 1400) true (by decide) (by decide)

end AgentMira
